import Mathlib

/-!
Shallow embedding of the spotify-connect-scrobbler orchestrator
(src/src/main.rs). The program is a hand-rolled four-source poll loop
(`Main::poll`) over discovery credentials, an in-flight session connect, an
interrupt signal and the running control task (Spirc/SpircTask).

The embedding keeps the `Main` struct as a record, replaces the polled
futures/streams by explicit per-pass inputs (what each source would yield
when polled in that pass) and records the externally visible actions of a
pass as a trace of effects: shutdown requests sent to a Spirc handle,
session connect attempts started, SpircTask handles detached via
`handle.spawn`, mixer factory invocations and Spirc construction. Handles
and tasks are identified by a generation counter `next_gen`, an
instrumentation index that is not a field of the source struct; it only
names the (Spirc, SpircTask) pairs so that the trace can speak about which
handle received which request.
-/

namespace Scrobble

/-- Opaque credential bundle, identified by a number. -/
abbrev Credentials := Nat

/-- Opaque authenticated session, identified by a number. -/
abbrev SessionId := Nat

/-- The `connect` field of `Main`: either the perpetually pending
`futures::future::empty()` placeholder or a live `Session::connect`
attempt seeded by some credentials. -/
inductive PendingConnect where
  | emptyFuture : PendingConnect
  | connectAttempt (creds : Credentials) : PendingConnect
deriving DecidableEq, Repr

/-- Externally visible action performed by the orchestrator. -/
inductive Effect where
  | shutdownReq (gen : Nat) : Effect
  | sessionConnect (config : Nat) (creds : Credentials) (cache : Option Nat) : Effect
  | spawnDetached (gen : Nat) : Effect
  | mixerCall (mixer : Nat) : Effect
  | spircNew (config : Nat) (scrobbler : Nat) (session : SessionId) (gen : Nat) : Effect
deriving DecidableEq, Repr

/-- The `Main` struct of src/src/main.rs. Streams and futures are replaced
by the data the orchestrator needs about them: `discovery` records whether
the discovery stream is present (`Option DiscoveryStream` in the source),
`spirc` and `spirc_task` hold the generation of the current handle/task
pair, `connect` is the pending connect future. `next_gen` is the
instrumentation counter explained in the file header. -/
structure Main where
  cache : Option Nat
  session_config : Nat
  connect_config : Nat
  mixer : Nat
  discovery : Bool
  spirc : Option Nat
  spirc_task : Option Nat
  connect : PendingConnect
  scrobbler_config : Nat
  shutdown : Bool
  next_gen : Nat
deriving DecidableEq, Repr

/-- Configuration produced by `setup`, as consumed by `Main::new`. -/
structure Setup where
  mixer : Nat
  cache : Option Nat
  session_config : Nat
  connect_config : Nat
  credentials : Option Credentials
  enable_discovery : Bool
  scrobbler_config : Nat
deriving DecidableEq, Repr

/-- `Main::credentials` (src/src/main.rs lines 215-227): start a
`Session::connect` with the stored session config, the new credentials and
the cache, store it in `connect`, clear `spirc`, and `mem::replace` the
old `spirc_task` out, spawning it on the reactor handle when present. -/
def Main.credentials (s : Main) (credentials : Credentials) : Main × List Effect :=
  let connection := Effect.sessionConnect s.session_config credentials s.cache
  let detachEff :=
    match s.spirc_task with
    | some task => [Effect.spawnDetached task]
    | none => []
  ({ s with
      connect := PendingConnect.connectAttempt credentials,
      spirc := none,
      spirc_task := none },
   connection :: detachEff)

/-- `Main::new` (src/src/main.rs lines 184-213): initial state with the
perpetually pending connect placeholder, discovery enabled per setup, and
an immediate credential swap when setup produced startup credentials. -/
def Main.new (setup : Setup) : Main × List Effect :=
  let task : Main :=
    { cache := setup.cache,
      session_config := setup.session_config,
      connect_config := setup.connect_config,
      mixer := setup.mixer,
      discovery := setup.enable_discovery,
      spirc := none,
      spirc_task := none,
      connect := PendingConnect.emptyFuture,
      scrobbler_config := setup.scrobbler_config,
      shutdown := false,
      next_gen := 0 }
  match setup.credentials with
  | some credentials => Main.credentials task credentials
  | none => (task, [])

/-- What polling the in-flight connect future yields in a pass. -/
inductive ConnectPoll where
  | notReady : ConnectPoll
  | readySession (session : SessionId) : ConnectPoll
  | connectErr : ConnectPoll
deriving DecidableEq, Repr

/-- Readiness of the four polled sources during one pass of the loop body
of `Main::poll`. `discoveryReady = some c` models the discovery stream
yielding `Async::Ready(Some(c))`; `connectPoll` is what a live connect
attempt would yield (ignored while `connect` is the empty placeholder);
`signalReady` models the ctrl-c stream yielding `Async::Ready(Some(()))`;
`taskReady` models the current SpircTask polling as `Async::Ready(())`. -/
structure PassInput where
  discoveryReady : Option Credentials
  connectPoll : ConnectPoll
  signalReady : Bool
  taskReady : Bool
deriving DecidableEq, Repr

/-- Outcome of one pass of the loop body of `Main::poll`. -/
inductive PassOutcome where
  | passContinue (progress : Bool) : PassOutcome
  | finished : PassOutcome
  | panicked (msg : String) : PassOutcome
deriving DecidableEq, Repr

/-- Third block of the loop body (src/src/main.rs lines 259-270, the
signal check) followed by the fourth block (lines 272-280, the task
check). Takes the state, effects and progress accumulated by the earlier
blocks. -/
def stepTask (s : Main) (eff : List Effect) (progress : Bool) (inp : PassInput) :
    Main × List Effect × PassOutcome :=
  match s.spirc_task, inp.taskReady with
  | some _, true =>
    if s.shutdown then (s, eff, PassOutcome.finished)
    else (s, eff, PassOutcome.panicked "Spirc shut down unexpectedly")
  | _, _ => (s, eff, PassOutcome.passContinue progress)

/-- Signal block of the loop body (src/src/main.rs lines 259-270): on a
ready interrupt, either request shutdown of the current spirc and set the
shutdown flag, or, when already shutting down, return ready. Control then
falls through to the task block. -/
def stepSignal (s : Main) (eff : List Effect) (progress : Bool) (inp : PassInput) :
    Main × List Effect × PassOutcome :=
  if inp.signalReady then
    if s.shutdown then (s, eff, PassOutcome.finished)
    else
      let shutEff :=
        match s.spirc with
        | some g => [Effect.shutdownReq g]
        | none => []
      stepTask { s with shutdown := true } (eff ++ shutEff) true inp
  else stepTask s eff progress inp

/-- One pass of the loop body of `Main::poll` (src/src/main.rs lines
235-284): poll discovery, then the connect future, then the signal stream,
then the current task, accumulating the effect trace in program order. The
`.unwrap()` on a failed connect poll is the panic outcome. -/
def onePass (s : Main) (inp : PassInput) : Main × List Effect × PassOutcome :=
  let afterDiscovery :=
    match s.discovery, inp.discoveryReady with
    | true, some creds =>
      let shutEff :=
        match s.spirc with
        | some g => [Effect.shutdownReq g]
        | none => []
      let swapped := Main.credentials s creds
      (swapped.1, shutEff ++ swapped.2, true)
    | _, _ => (s, ([] : List Effect), false)
  let s1 := afterDiscovery.1
  let e1 := afterDiscovery.2.1
  let p1 := afterDiscovery.2.2
  match s1.connect, inp.connectPoll with
  | PendingConnect.connectAttempt _, ConnectPoll.connectErr =>
    (s1, e1, PassOutcome.panicked "session connect failed")
  | PendingConnect.connectAttempt _, ConnectPoll.readySession session =>
    let g := s1.next_gen
    stepSignal
      { s1 with
          connect := PendingConnect.emptyFuture,
          spirc := some g,
          spirc_task := some g,
          next_gen := g + 1 }
      (e1 ++ [Effect.mixerCall s1.mixer,
              Effect.spircNew s1.connect_config s1.scrobbler_config session g])
      true inp
  | _, _ => stepSignal s1 e1 p1 inp

/-- Result of one call to `Main::poll`: suspend (`Async::NotReady`), clean
completion (`Async::Ready(())`), a panic, or exhaustion of the supplied
per-pass inputs while the loop still wanted to run (a modelling artifact,
not a behavior of the source). -/
inductive PollResult where
  | notReady : PollResult
  | ready : PollResult
  | panicked (msg : String) : PollResult
  | fuelOut : PollResult
deriving DecidableEq, Repr

/-- The `loop` of `Main::poll`: repeat passes while some source made
progress; when a full pass marks no progress, return `NotReady`. -/
def pollLoop : Main → List PassInput → Main × List Effect × PollResult
  | s, [] => (s, [], PollResult.fuelOut)
  | s, inp :: rest =>
    match onePass s inp with
    | (s1, e1, PassOutcome.passContinue true) =>
      let r := pollLoop s1 rest
      (r.1, e1 ++ r.2.1, r.2.2)
    | (s1, e1, PassOutcome.passContinue false) => (s1, e1, PollResult.notReady)
    | (s1, e1, PassOutcome.finished) => (s1, e1, PollResult.ready)
    | (s1, e1, PassOutcome.panicked m) => (s1, e1, PollResult.panicked m)

/-- Overall result of driving the `Main` future on the reactor
(`core.run` in `main`). -/
inductive RunResult where
  | finishedOk : RunResult
  | runPanicked (msg : String) : RunResult
  | suspended : RunResult
deriving DecidableEq, Repr

/-- Driving the `Main` future to completion: each round is one call to
`Main::poll`; a `NotReady` round suspends until sources are ready again
and is followed by the next round. Runs stop at `ready` (clean exit) or a
panic; exhausting the rounds, or a round that ran out of pass inputs,
leaves the future suspended. -/
def runMain : Main → List (List PassInput) → Main × List Effect × RunResult
  | s, [] => (s, [], RunResult.suspended)
  | s, round :: rest =>
    match pollLoop s round with
    | (s1, e1, PollResult.ready) => (s1, e1, RunResult.finishedOk)
    | (s1, e1, PollResult.panicked m) => (s1, e1, RunResult.runPanicked m)
    | (s1, e1, PollResult.notReady) =>
      let r := runMain s1 rest
      (r.1, e1 ++ r.2.1, r.2.2)
    | (s1, e1, PollResult.fuelOut) => (s1, e1, RunResult.suspended)

/-- The spec-level shutdown progression. -/
inductive ShutdownState where
  | Running : ShutdownState
  | ShuttingDown : ShutdownState
  | Terminated : ShutdownState
deriving DecidableEq, Repr

/-- Numeric rank of the shutdown progression, for monotonicity. -/
def ShutdownState.rank : ShutdownState → Nat
  | ShutdownState.Running => 0
  | ShutdownState.ShuttingDown => 1
  | ShutdownState.Terminated => 2

/-- Shutdown state of a `Main` value that is still being polled: the
`shutdown` flag distinguishes Running from ShuttingDown. -/
def shutdownStateAt (s : Main) : ShutdownState :=
  if s.shutdown then ShutdownState.ShuttingDown else ShutdownState.Running

/-- Shutdown state after a call to `Main::poll`: a `ready` result is the
Terminated lifecycle end, anything else is read off the state. -/
def shutdownStateAfter (s : Main) (r : PollResult) : ShutdownState :=
  match r with
  | PollResult.ready => ShutdownState.Terminated
  | _ => shutdownStateAt s

/-- The handles currently tracked as current by the orchestrator. -/
def currentHandles (s : Main) : List Nat :=
  match s.spirc with
  | some g => [g]
  | none => []

/-- Spec-side drive step 1, written from the numbered drive-step
description of the spec: poll discovery; on a new bundle, send a shutdown
request to the current handle when set, then credential-swap — replace
the pending connect by a fresh connector from the stored session config,
the new credentials and the cache, clear the current handle, detach a set
current task and clear it; mark progress. Returns the new state, the
effects of this step only and its progress mark. -/
def specDiscoveryStep (s : Main) (inp : PassInput) : Main × List Effect × Bool :=
  match s.discovery, inp.discoveryReady with
  | true, some creds =>
    let shutEff :=
      match s.spirc with
      | some g => [Effect.shutdownReq g]
      | none => []
    let swapEff :=
      [Effect.sessionConnect s.session_config creds s.cache] ++
        (match s.spirc_task with
         | some task => [Effect.spawnDetached task]
         | none => [])
    ({ s with
        connect := PendingConnect.connectAttempt creds,
        spirc := none,
        spirc_task := none },
     shutEff ++ swapEff, true)
  | _, _ => (s, [], false)

/-- Spec-side drive step 2: poll the pending connect. On a session, build
a mixer, construct the handle/task pair, store both as current and reset
the pending connect to the perpetually pending placeholder; on failure,
halt with the fatal connect error. Returns either the new state with the
effects of this step only and its progress mark, or the halting outcome. -/
def specConnectStep (s : Main) (inp : PassInput) :
    (Main × List Effect × Bool) ⊕ PassOutcome :=
  match s.connect, inp.connectPoll with
  | PendingConnect.connectAttempt _, ConnectPoll.connectErr =>
    Sum.inr (PassOutcome.panicked "session connect failed")
  | PendingConnect.connectAttempt _, ConnectPoll.readySession session =>
    Sum.inl
      ({ s with
          connect := PendingConnect.emptyFuture,
          spirc := some s.next_gen,
          spirc_task := some s.next_gen,
          next_gen := s.next_gen + 1 },
       [Effect.mixerCall s.mixer,
        Effect.spircNew s.connect_config s.scrobbler_config session s.next_gen],
       true)
  | _, _ => Sum.inl (s, [], false)

/-- Spec-side drive step 3: poll the shutdown signal. While Running, send
a shutdown request to the current handle when set and advance to
ShuttingDown; when already ShuttingDown, halt the lifecycle. -/
def specSignalStep (s : Main) (inp : PassInput) :
    (Main × List Effect × Bool) ⊕ PassOutcome :=
  match inp.signalReady, s.shutdown with
  | true, true => Sum.inr PassOutcome.finished
  | true, false =>
    Sum.inl
      ({ s with shutdown := true },
       (match s.spirc with
        | some g => [Effect.shutdownReq g]
        | none => []),
       true)
  | false, _ => Sum.inl (s, [], false)

/-- Spec-side drive step 4: poll a set current task. On completion, end
the lifecycle cleanly when ShuttingDown, otherwise escalate the fatal
invariant violation. -/
def specTaskStep (s : Main) (inp : PassInput) : Option PassOutcome :=
  match s.spirc_task, inp.taskReady, s.shutdown with
  | some _, true, true => some PassOutcome.finished
  | some _, true, false => some (PassOutcome.panicked "Spirc shut down unexpectedly")
  | _, _, _ => none

/-- Spec-side drive pass: the four steps in the order the spec fixes
(discovery-handling, then connect-handling, then signal-handling, then
task-completion-handling), effects concatenated in step order, progress
the disjunction of the step marks. -/
def specDrivePass (s : Main) (inp : PassInput) : Main × List Effect × PassOutcome :=
  let d := specDiscoveryStep s inp
  match specConnectStep d.1 inp with
  | Sum.inr out => (d.1, d.2.1, out)
  | Sum.inl c =>
    match specSignalStep c.1 inp with
    | Sum.inr out => (c.1, d.2.1 ++ c.2.1, out)
    | Sum.inl sg =>
      match specTaskStep sg.1 inp with
      | some out => (sg.1, d.2.1 ++ c.2.1 ++ sg.2.1, out)
      | none =>
        (sg.1, d.2.1 ++ c.2.1 ++ sg.2.1,
         PassOutcome.passContinue (d.2.2 || c.2.2 || sg.2.2))

/-!
Command-line entry model. The option table is the one `setup`
(src/src/main.rs lines 73-89) declares; the parsing algorithm of the
external getopts crate and the rendering of its usage text are not part of
this repository and are modelled from the spec.
-/

/-- Long names of the flag options declared by `setup`. -/
def optflagLong : List String :=
  ["disable-audio-cache", "verbose", "disable-discovery"]

/-- Long names of the value-taking options declared by `setup`. -/
def optoptLong : List String :=
  ["cache", "name", "device-type", "onstart", "onstop",
   "spotify-username", "spotify-password", "device", "mixer",
   "lastfm-username", "lastfm-password", "lastfm-api-key",
   "lastfm-api-secret"]

/-- Short option names declared by `setup`, mapped to their long names. -/
def shortToLong : String → Option String
  | "c" => some "cache"
  | "n" => some "name"
  | "v" => some "verbose"
  | _ => none

/-- Result of a successful option parse: flags seen, option values seen
and free arguments. -/
structure Matches where
  flags : List String
  optvals : List (String × String)
  free : List String
deriving DecidableEq, Repr

/-- Classification of one argument token: a long or short option name
resolved to its long form, an unknown option, or a free argument. -/
inductive TokKind where
  | optName (long : String) : TokKind
  | badOpt (name : String) : TokKind
  | freeArg : TokKind
deriving DecidableEq, Repr

/-- Modelled from the spec: getopts token classification over the
characters of the token. A token starting with two dashes is a long
option name; a token starting with one dash (other than a bare dash) is a
short option name resolved through the declared shorts; anything else is
a free argument. -/
def classifyChars : List Char → TokKind
  | '-' :: '-' :: rest => TokKind.optName (String.mk rest)
  | ['-'] => TokKind.freeArg
  | '-' :: rest =>
    match shortToLong (String.mk rest) with
    | some long => TokKind.optName long
    | none => TokKind.badOpt (String.mk rest)
  | _ => TokKind.freeArg

/-- Modelled from the spec: getopts token classification of a token. -/
def classifyTok (tok : String) : TokKind :=
  classifyChars tok.data

/-- Modelled from the spec: the getopts parse of the argument vector
against the option table of `setup`, one token at a time. The first
argument is a value-taking option still waiting for its value. A
recognized flag is recorded; a recognized value-taking option consumes the
next token as its value and fails when none follows; an unrecognized
option is a parse failure; other tokens are free arguments. -/
def parseTokensAux : Option String → List String → Except String Matches
  | some long, [] => Except.error ("Option missing argument: " ++ long)
  | some long, v :: rest =>
    match parseTokensAux none rest with
    | Except.ok m => Except.ok { m with optvals := (long, v) :: m.optvals }
    | Except.error e => Except.error e
  | none, [] => Except.ok { flags := [], optvals := [], free := [] }
  | none, tok :: rest =>
    match classifyTok tok with
    | TokKind.badOpt name => Except.error ("Unrecognized option: " ++ name)
    | TokKind.freeArg =>
      match parseTokensAux none rest with
      | Except.ok m => Except.ok { m with free := tok :: m.free }
      | Except.error e => Except.error e
    | TokKind.optName long =>
      if optflagLong.contains long then
        match parseTokensAux none rest with
        | Except.ok m => Except.ok { m with flags := long :: m.flags }
        | Except.error e => Except.error e
      else if optoptLong.contains long then parseTokensAux (some long) rest
      else Except.error ("Unrecognized option: " ++ long)

/-- Modelled from the spec: the getopts parse of the whole argument
vector, starting with no option waiting for a value. -/
def parseTokens (args : List String) : Except String Matches :=
  parseTokensAux none args

/-- The `usage` function (src/src/main.rs lines 34-37): the brief usage
line for the program; the option listing getopts appends to it is
external and modelled from the spec as part of this text. -/
def usage (program : String) : String :=
  "Usage: " ++ program ++ " [options]"

/-- Outcome of the argument-handling prefix of `setup` (src/src/main.rs
lines 91-97): on a parse failure the error and the usage text go to the
error stream and the process exits with code 1 before any configuration
is constructed; otherwise setup proceeds with the matches. -/
inductive SetupOutcome where
  | usageExit (stderrLine : String) (code : Nat) : SetupOutcome
  | proceed (m : Matches) : SetupOutcome
deriving DecidableEq, Repr

/-- The argument-handling prefix of `setup`: `args` are the arguments
after the program name, as in the `&args[1..]` of the source. -/
def setupParse (program : String) (args : List String) : SetupOutcome :=
  match parseTokens args with
  | Except.error f =>
    SetupOutcome.usageExit ("error: " ++ f ++ "\n" ++ usage program) 1
  | Except.ok m => SetupOutcome.proceed m

/-- Sample orchestrator state used to exercise the theorems on concrete
inputs: discovery enabled, a current handle/task pair of generation 0, the
pending connect at the perpetually pending placeholder. -/
def exMain : Main :=
  { cache := some 7,
    session_config := 1,
    connect_config := 2,
    mixer := 3,
    discovery := true,
    spirc := some 0,
    spirc_task := some 0,
    connect := PendingConnect.emptyFuture,
    scrobbler_config := 4,
    shutdown := false,
    next_gen := 1 }

/-- Sample pass input with no source ready. -/
def exIdle : PassInput :=
  { discoveryReady := none, connectPoll := ConnectPoll.notReady,
    signalReady := false, taskReady := false }

/-- Sample pass input with only the interrupt signal ready. -/
def exSignal : PassInput :=
  { discoveryReady := none, connectPoll := ConnectPoll.notReady,
    signalReady := true, taskReady := false }

/-- Sample setup with no startup credentials. -/
def exSetup : Setup :=
  { mixer := 3, cache := none, session_config := 1, connect_config := 2,
    credentials := none, enable_discovery := true, scrobbler_config := 4 }

/-!
Helper lemmas. The loop-body facts are proved on the modular
`specDrivePass` and transported to `onePass` through the refinement lemma
`onePass_eq_drive`.
-/

lemma onePass_eq_drive (s : Main) (inp : PassInput) :
    onePass s inp = specDrivePass s inp := by
  unfold onePass specDrivePass specDiscoveryStep specConnectStep specSignalStep
    specTaskStep stepSignal stepTask Main.credentials
  rcases s with ⟨cache, sc, cc, mx, disc, sp, st, conn, scr, sh, ng⟩
  rcases inp with ⟨dr, cp, sr, tr⟩
  cases disc <;> cases dr <;> cases conn <;> cases cp <;> cases sr <;> cases sh <;>
    cases sp <;> cases st <;> cases tr <;> simp_all

lemma specDiscoveryStep_facts (s : Main) (inp : PassInput) :
    (specDiscoveryStep s inp).1.shutdown = s.shutdown ∧
    (specDiscoveryStep s inp).1.next_gen = s.next_gen ∧
    (∀ g, (specDiscoveryStep s inp).1.spirc = some g → s.spirc = some g) ∧
    (∀ g, Effect.shutdownReq g ∈ (specDiscoveryStep s inp).2.1 → s.spirc = some g) ∧
    ((specDiscoveryStep s inp).2.2 = false → specDiscoveryStep s inp = (s, [], false)) := by
  unfold specDiscoveryStep
  repeat' split <;> simp_all

lemma specConnectStep_inl_facts (s : Main) (inp : PassInput) (c : Main × List Effect × Bool)
    (h : specConnectStep s inp = Sum.inl c) :
    c.1.shutdown = s.shutdown ∧
    s.next_gen ≤ c.1.next_gen ∧
    (∀ g, c.1.spirc = some g → s.spirc = some g ∨ s.next_gen ≤ g) ∧
    (∀ g, Effect.shutdownReq g ∉ c.2.1) ∧
    (c.2.2 = false → c = (s, [], false)) := by
  unfold specConnectStep at h
  repeat' split at h <;> cases h <;> simp_all <;> omega

lemma specConnectStep_inr (s : Main) (inp : PassInput) (out : PassOutcome)
    (h : specConnectStep s inp = Sum.inr out) :
    out = PassOutcome.panicked "session connect failed" := by
  unfold specConnectStep at h
  repeat' split at h <;> cases h <;> simp_all

lemma specSignalStep_inl_facts (s : Main) (inp : PassInput) (c : Main × List Effect × Bool)
    (h : specSignalStep s inp = Sum.inl c) :
    c.1.spirc = s.spirc ∧ c.1.spirc_task = s.spirc_task ∧
    c.1.next_gen = s.next_gen ∧ c.1.connect = s.connect ∧
    (s.shutdown = true → c.1.shutdown = true) ∧
    (∀ g, Effect.shutdownReq g ∈ c.2.1 → s.spirc = some g) ∧
    (∀ m, Effect.mixerCall m ∉ c.2.1) ∧
    (c.2.2 = false → c = (s, [], false)) := by
  unfold specSignalStep at h
  repeat' split at h <;> cases h <;> cases hsp : s.spirc <;> simp_all

lemma specSignalStep_inr (s : Main) (inp : PassInput) (out : PassOutcome)
    (h : specSignalStep s inp = Sum.inr out) :
    out = PassOutcome.finished ∧ s.shutdown = true ∧ inp.signalReady = true := by
  unfold specSignalStep at h
  repeat' split at h <;> cases h <;> simp_all

lemma specTaskStep_some (s : Main) (inp : PassInput) (out : PassOutcome)
    (h : specTaskStep s inp = some out) :
    (s.shutdown = true ∧ out = PassOutcome.finished) ∨
    (s.shutdown = false ∧ out = PassOutcome.panicked "Spirc shut down unexpectedly") := by
  unfold specTaskStep at h
  repeat' split at h <;> cases h <;> simp_all

lemma drivePass_facts (s : Main) (inp : PassInput) :
    (s.shutdown = true → (specDrivePass s inp).1.shutdown = true) ∧
    s.next_gen ≤ (specDrivePass s inp).1.next_gen ∧
    (∀ g, (specDrivePass s inp).1.spirc = some g → s.spirc = some g ∨ s.next_gen ≤ g) ∧
    ((specDrivePass s inp).2.2 = PassOutcome.passContinue false →
      (specDrivePass s inp).1 = s ∧ (specDrivePass s inp).2.1 = []) ∧
    (∀ g, Effect.shutdownReq g ∈ (specDrivePass s inp).2.1 →
      s.spirc = some g ∨ s.next_gen ≤ g) := by
  obtain ⟨dsh, dng, dsp, dreq, dnp⟩ := specDiscoveryStep_facts s inp
  unfold specDrivePass
  rcases hc : specConnectStep (specDiscoveryStep s inp).1 inp with c | out
  · obtain ⟨csh, cng, csp, creq, cnp⟩ := specConnectStep_inl_facts _ _ _ hc
    rcases hs : specSignalStep c.1 inp with sg | out2
    · obtain ⟨gsp, gst, gng, gcn, gsh, greq, gmx, gnp⟩ := specSignalStep_inl_facts _ _ _ hs
      rcases ht : specTaskStep sg.1 inp with _ | out3
      · simp only [hc, hs, ht]
        refine ⟨?_, ?_, ?_, ?_, ?_⟩
        · intro h
          exact gsh (csh.trans (dsh.trans h) )
        · omega
        · intro g hg
          rcases csp g (gsp ▸ hg) with h1 | h2
          · exact Or.inl (dsp g h1)
          · exact Or.inr (dng ▸ h2)
        · intro hpc
          simp only [PassOutcome.passContinue.injEq] at hpc
          rw [Bool.or_eq_false_iff, Bool.or_eq_false_iff] at hpc
          obtain ⟨⟨hd0, hc0⟩, hg0⟩ := hpc
          have hd1 := dnp hd0
          have hc1 := cnp hc0
          have hg1 := gnp hg0
          constructor
          · rw [hg1]
            simp only []
            rw [hc1]
            simp only []
            rw [hd1]
          · rw [hd1, hc1, hg1]
            simp [hd1]
        · intro g hg
          rw [List.mem_append, List.mem_append] at hg
          rcases hg with (hg | hg) | hg
          · exact Or.inl (dreq g hg)
          · exact absurd hg (creq g)
          · rcases csp g (greq g hg) with h1 | h2
            · exact Or.inl (dsp g h1)
            · exact Or.inr (dng ▸ h2)
      · obtain hcase := specTaskStep_some _ _ _ ht
        simp only [hc, hs, ht]
        refine ⟨?_, ?_, ?_, ?_, ?_⟩
        · intro h
          exact gsh (csh.trans (dsh.trans h))
        · omega
        · intro g hg
          rcases csp g (gsp ▸ hg) with h1 | h2
          · exact Or.inl (dsp g h1)
          · exact Or.inr (dng ▸ h2)
        · intro hpc
          rcases hcase with ⟨_, rfl⟩ | ⟨_, rfl⟩ <;> simp_all
        · intro g hg
          rw [List.mem_append, List.mem_append] at hg
          rcases hg with (hg | hg) | hg
          · exact Or.inl (dreq g hg)
          · exact absurd hg (creq g)
          · rcases csp g (greq g hg) with h1 | h2
            · exact Or.inl (dsp g h1)
            · exact Or.inr (dng ▸ h2)
    · obtain ⟨rfl, hcs, _⟩ := specSignalStep_inr _ _ _ hs
      simp only [hc, hs]
      refine ⟨?_, ?_, ?_, ?_, ?_⟩
      · intro h
        exact hcs
      · omega
      · intro g hg
        rcases csp g hg with h1 | h2
        · exact Or.inl (dsp g h1)
        · exact Or.inr (dng ▸ h2)
      · intro hpc
        simp at hpc
      · intro g hg
        rw [List.mem_append] at hg
        rcases hg with hg | hg
        · exact Or.inl (dreq g hg)
        · exact absurd hg (creq g)
  · obtain rfl := specConnectStep_inr _ _ _ hc
    simp only [hc]
    refine ⟨?_, ?_, ?_, ?_, ?_⟩
    · intro h
      exact dsh.trans h
    · omega
    · intro g hg
      exact Or.inl (dsp g hg)
    · intro hpc
      simp at hpc
    · intro g hg
      exact Or.inl (dreq g hg)

lemma onePass_facts (s : Main) (inp : PassInput) :
    (s.shutdown = true → (onePass s inp).1.shutdown = true) ∧
    s.next_gen ≤ (onePass s inp).1.next_gen ∧
    (∀ g, (onePass s inp).1.spirc = some g → s.spirc = some g ∨ s.next_gen ≤ g) ∧
    ((onePass s inp).2.2 = PassOutcome.passContinue false →
      (onePass s inp).1 = s ∧ (onePass s inp).2.1 = []) ∧
    (∀ g, Effect.shutdownReq g ∈ (onePass s inp).2.1 →
      s.spirc = some g ∨ s.next_gen ≤ g) := by
  rw [onePass_eq_drive]
  exact drivePass_facts s inp

lemma pollLoop_cons_progress (s : Main) (inp : PassInput) (rest : List PassInput)
    (s1 : Main) (e1 : List Effect)
    (h : onePass s inp = (s1, e1, PassOutcome.passContinue true)) :
    pollLoop s (inp :: rest) =
      ((pollLoop s1 rest).1, e1 ++ (pollLoop s1 rest).2.1, (pollLoop s1 rest).2.2) := by
  simp only [pollLoop, h]

lemma pollLoop_cons_noProgress (s : Main) (inp : PassInput) (rest : List PassInput)
    (s1 : Main) (e1 : List Effect)
    (h : onePass s inp = (s1, e1, PassOutcome.passContinue false)) :
    pollLoop s (inp :: rest) = (s1, e1, PollResult.notReady) := by
  simp only [pollLoop, h]

lemma pollLoop_cons_finished (s : Main) (inp : PassInput) (rest : List PassInput)
    (s1 : Main) (e1 : List Effect)
    (h : onePass s inp = (s1, e1, PassOutcome.finished)) :
    pollLoop s (inp :: rest) = (s1, e1, PollResult.ready) := by
  simp only [pollLoop, h]

lemma pollLoop_cons_panicked (s : Main) (inp : PassInput) (rest : List PassInput)
    (s1 : Main) (e1 : List Effect) (m : String)
    (h : onePass s inp = (s1, e1, PassOutcome.panicked m)) :
    pollLoop s (inp :: rest) = (s1, e1, PollResult.panicked m) := by
  simp only [pollLoop, h]

lemma pollLoop_facts (l : List PassInput) : ∀ s : Main,
    (s.shutdown = true → (pollLoop s l).1.shutdown = true) ∧
    s.next_gen ≤ (pollLoop s l).1.next_gen ∧
    (∀ g, (pollLoop s l).1.spirc = some g → s.spirc = some g ∨ s.next_gen ≤ g) := by
  induction l with
  | nil =>
    intro s
    exact ⟨fun h => h, le_refl _, fun g hg => Or.inl hg⟩
  | cons inp rest ih =>
    intro s
    obtain ⟨fsh, fng, fsp, _, _⟩ := onePass_facts s inp
    rcases ho : onePass s inp with ⟨s1, e1, o⟩
    rw [ho] at fsh fng fsp
    match o with
    | PassOutcome.passContinue true =>
      rw [pollLoop_cons_progress s inp rest s1 e1 ho]
      obtain ⟨ish, ing, isp⟩ := ih s1
      refine ⟨fun h => ish (fsh h), le_trans fng ing, ?_⟩
      intro g hg
      rcases isp g hg with h1 | h2
      · exact fsp g h1
      · exact Or.inr (le_trans fng h2)
    | PassOutcome.passContinue false =>
      rw [pollLoop_cons_noProgress s inp rest s1 e1 ho]
      exact ⟨fsh, fng, fsp⟩
    | PassOutcome.finished =>
      rw [pollLoop_cons_finished s inp rest s1 e1 ho]
      exact ⟨fsh, fng, fsp⟩
    | PassOutcome.panicked m =>
      rw [pollLoop_cons_panicked s inp rest s1 e1 m ho]
      exact ⟨fsh, fng, fsp⟩

lemma runMain_round_ready (s : Main) (round : List PassInput) (rest : List (List PassInput))
    (s1 : Main) (e1 : List Effect)
    (h : pollLoop s round = (s1, e1, PollResult.ready)) :
    runMain s (round :: rest) = (s1, e1, RunResult.finishedOk) := by
  simp only [runMain, h]

lemma runMain_round_panicked (s : Main) (round : List PassInput) (rest : List (List PassInput))
    (s1 : Main) (e1 : List Effect) (m : String)
    (h : pollLoop s round = (s1, e1, PollResult.panicked m)) :
    runMain s (round :: rest) = (s1, e1, RunResult.runPanicked m) := by
  simp only [runMain, h]

lemma runMain_round_notReady (s : Main) (round : List PassInput) (rest : List (List PassInput))
    (s1 : Main) (e1 : List Effect)
    (h : pollLoop s round = (s1, e1, PollResult.notReady)) :
    runMain s (round :: rest) =
      ((runMain s1 rest).1, e1 ++ (runMain s1 rest).2.1, (runMain s1 rest).2.2) := by
  simp only [runMain, h]

lemma runMain_round_fuelOut (s : Main) (round : List PassInput) (rest : List (List PassInput))
    (s1 : Main) (e1 : List Effect)
    (h : pollLoop s round = (s1, e1, PollResult.fuelOut)) :
    runMain s (round :: rest) = (s1, e1, RunResult.suspended) := by
  simp only [runMain, h]

lemma runMain_facts (rounds : List (List PassInput)) : ∀ s : Main,
    (s.shutdown = true → (runMain s rounds).1.shutdown = true) ∧
    s.next_gen ≤ (runMain s rounds).1.next_gen ∧
    (∀ g, (runMain s rounds).1.spirc = some g → s.spirc = some g ∨ s.next_gen ≤ g) := by
  induction rounds with
  | nil =>
    intro s
    exact ⟨fun h => h, le_refl _, fun g hg => Or.inl hg⟩
  | cons round rest ih =>
    intro s
    obtain ⟨fsh, fng, fsp⟩ := pollLoop_facts round s
    rcases ho : pollLoop s round with ⟨s1, e1, o⟩
    rw [ho] at fsh fng fsp
    match o with
    | PollResult.notReady =>
      rw [runMain_round_notReady s round rest s1 e1 ho]
      obtain ⟨ish, ing, isp⟩ := ih s1
      refine ⟨fun h => ish (fsh h), le_trans fng ing, ?_⟩
      intro g hg
      rcases isp g hg with h1 | h2
      · exact fsp g h1
      · exact Or.inr (le_trans fng h2)
    | PollResult.ready =>
      rw [runMain_round_ready s round rest s1 e1 ho]
      exact ⟨fsh, fng, fsp⟩
    | PollResult.panicked m =>
      rw [runMain_round_panicked s round rest s1 e1 m ho]
      exact ⟨fsh, fng, fsp⟩
    | PollResult.fuelOut =>
      rw [runMain_round_fuelOut s round rest s1 e1 ho]
      exact ⟨fsh, fng, fsp⟩

lemma onePass_quiescent (s : Main) (inp : PassInput)
    (hd : inp.discoveryReady = none) (hs : s.spirc = none)
    (ht : s.spirc_task = none) (hc : s.connect = PendingConnect.emptyFuture) :
    (onePass s inp).1.spirc = none ∧ (onePass s inp).1.spirc_task = none ∧
    (onePass s inp).1.connect = PendingConnect.emptyFuture ∧
    (onePass s inp).2.1 = [] ∧
    (∀ m, (onePass s inp).2.2 ≠ PassOutcome.panicked m) ∧
    ((onePass s inp).2.2 = PassOutcome.finished → s.shutdown = true ∧ (onePass s inp).1 = s) := by
  rcases s with ⟨cache, sc, cc, mx, disc, sp, st, conn, scr, sh, ng⟩
  rcases inp with ⟨dr, cp, sr, tr⟩
  simp only at hd hs ht hc
  subst hd hs ht hc
  unfold onePass stepSignal stepTask
  cases disc <;> cases cp <;> cases sr <;> cases sh <;> simp_all

lemma pollLoop_quiescent (l : List PassInput) : ∀ s : Main,
    (∀ inp ∈ l, inp.discoveryReady = none) →
    s.spirc = none → s.spirc_task = none → s.connect = PendingConnect.emptyFuture →
    (pollLoop s l).1.spirc = none ∧ (pollLoop s l).1.spirc_task = none ∧
    (pollLoop s l).1.connect = PendingConnect.emptyFuture ∧
    (pollLoop s l).2.1 = [] ∧
    (∀ m, (pollLoop s l).2.2 ≠ PollResult.panicked m) ∧
    ((pollLoop s l).2.2 = PollResult.ready → (pollLoop s l).1.shutdown = true) := by
  induction l with
  | nil =>
    intro s hnone hs ht hc
    exact ⟨hs, ht, hc, rfl, fun m => by simp [pollLoop], by simp [pollLoop]⟩
  | cons inp rest ih =>
    intro s hnone hs ht hc
    obtain ⟨qsp, qst, qcn, qe, qnp, qfin⟩ :=
      onePass_quiescent s inp (hnone inp (List.mem_cons_self inp rest)) hs ht hc
    rcases ho : onePass s inp with ⟨s1, e1, o⟩
    rw [ho] at qsp qst qcn qe qnp qfin
    simp only at qsp qst qcn qe qnp qfin
    have hrest : ∀ i ∈ rest, i.discoveryReady = none :=
      fun i hi => hnone i (List.mem_cons_of_mem inp hi)
    match o, qnp, qfin with
    | PassOutcome.passContinue true, _, _ =>
      rw [pollLoop_cons_progress s inp rest s1 e1 ho]
      obtain ⟨isp, ist, icn, ie, inpk, ifin⟩ := ih s1 hrest qsp qst qcn
      exact ⟨isp, ist, icn, by simp [qe, ie], inpk, ifin⟩
    | PassOutcome.passContinue false, _, _ =>
      rw [pollLoop_cons_noProgress s inp rest s1 e1 ho]
      exact ⟨qsp, qst, qcn, qe, by simp, by simp⟩
    | PassOutcome.finished, _, qfin =>
      rw [pollLoop_cons_finished s inp rest s1 e1 ho]
      obtain ⟨hsd, hst⟩ := qfin rfl
      refine ⟨qsp, qst, qcn, qe, by simp, ?_⟩
      intro _
      rw [hst]
      exact hsd
    | PassOutcome.panicked m, qnp, _ =>
      exact absurd rfl (qnp m)

lemma runMain_quiescent (rounds : List (List PassInput)) : ∀ s : Main,
    (∀ round ∈ rounds, ∀ inp ∈ round, inp.discoveryReady = none) →
    s.spirc = none → s.spirc_task = none → s.connect = PendingConnect.emptyFuture →
    (runMain s rounds).1.spirc = none ∧ (runMain s rounds).1.spirc_task = none ∧
    (runMain s rounds).1.connect = PendingConnect.emptyFuture ∧
    (runMain s rounds).2.1 = [] ∧
    (∀ m, (runMain s rounds).2.2 ≠ RunResult.runPanicked m) ∧
    ((runMain s rounds).2.2 = RunResult.finishedOk → (runMain s rounds).1.shutdown = true) := by
  induction rounds with
  | nil =>
    intro s hnone hs ht hc
    exact ⟨hs, ht, hc, rfl, fun m => by simp [runMain], by simp [runMain]⟩
  | cons round rest ih =>
    intro s hnone hs ht hc
    obtain ⟨qsp, qst, qcn, qe, qnp, qfin⟩ :=
      pollLoop_quiescent round s (hnone round (List.mem_cons_self round rest)) hs ht hc
    rcases ho : pollLoop s round with ⟨s1, e1, o⟩
    rw [ho] at qsp qst qcn qe qnp qfin
    simp only at qsp qst qcn qe qnp qfin
    have hrest : ∀ r ∈ rest, ∀ i ∈ r, i.discoveryReady = none :=
      fun r hr => hnone r (List.mem_cons_of_mem round hr)
    match o, qnp, qfin with
    | PollResult.notReady, _, _ =>
      rw [runMain_round_notReady s round rest s1 e1 ho]
      obtain ⟨isp, ist, icn, ie, inpk, ifin⟩ := ih s1 hrest qsp qst qcn
      exact ⟨isp, ist, icn, by simp [qe, ie], inpk, ifin⟩
    | PollResult.ready, _, qfin =>
      rw [runMain_round_ready s round rest s1 e1 ho]
      refine ⟨qsp, qst, qcn, qe, by simp, ?_⟩
      intro _
      exact qfin rfl
    | PollResult.panicked m, qnp, _ =>
      exact absurd rfl (qnp m)
    | PollResult.fuelOut, _, _ =>
      rw [runMain_round_fuelOut s round rest s1 e1 ho]
      exact ⟨qsp, qst, qcn, qe, by simp, by simp⟩

lemma specDiscoveryStep_none (s : Main) (inp : PassInput)
    (hd : inp.discoveryReady = none) :
    specDiscoveryStep s inp = (s, [], false) := by
  unfold specDiscoveryStep
  split <;> simp_all

lemma specConnectStep_empty (s : Main) (inp : PassInput)
    (hc : s.connect = PendingConnect.emptyFuture) :
    specConnectStep s inp = Sum.inl (s, [], false) := by
  unfold specConnectStep
  split <;> simp_all

lemma onePass_empty_connect (s : Main) (inp : PassInput)
    (hc : s.connect = PendingConnect.emptyFuture) (hd : inp.discoveryReady = none) :
    (onePass s inp).1.connect = PendingConnect.emptyFuture ∧
    (∀ m, Effect.mixerCall m ∉ (onePass s inp).2.1) := by
  rw [onePass_eq_drive]
  unfold specDrivePass
  simp only [specDiscoveryStep_none s inp hd, specConnectStep_empty s inp hc]
  rcases hs : specSignalStep s inp with sg | out2
  · obtain ⟨gsp, gst, gng, gcn, gsh, greq, gmx, gnp⟩ := specSignalStep_inl_facts _ _ _ hs
    rcases ht : specTaskStep sg.1 inp with _ | out3 <;> simp only [ht] <;>
      exact ⟨by rw [gcn]; exact hc, by simpa using gmx⟩
  · simp only []
    exact ⟨hc, by simp⟩

/-- C1: for every credential bundle yielded by discovery, the pass first
sends a fire-and-forget shutdown request to the current handle when one is
set, then replaces the pending connect by a fresh Session::connect built
from the stored session config, the new credentials and the current cache
reference, clears the current handle, and detaches a set current task by
spawning it (rather than dropping it), after which it is no longer
tracked. -/
theorem credential_swap_on_discovery (s : Main) (c : Credentials)
    (hd : s.discovery = true) :
    onePass s { discoveryReady := some c, connectPoll := ConnectPoll.notReady,
                signalReady := false, taskReady := false } =
      ({ s with connect := PendingConnect.connectAttempt c,
                spirc := none, spirc_task := none },
       (match s.spirc with
        | some g => [Effect.shutdownReq g]
        | none => []) ++
         Effect.sessionConnect s.session_config c s.cache ::
         (match s.spirc_task with
          | some t => [Effect.spawnDetached t]
          | none => []),
       PassOutcome.passContinue true) := by
  cases hsp : s.spirc <;> cases hst : s.spirc_task <;>
    simp [onePass, Main.credentials, stepSignal, stepTask, hd, hsp, hst]

theorem credential_swap_on_discovery_witness :
    onePass exMain
      { discoveryReady := some 9, connectPoll := ConnectPoll.notReady,
        signalReady := false, taskReady := false } =
      ({ exMain with connect := PendingConnect.connectAttempt 9,
                     spirc := none, spirc_task := none },
       [Effect.shutdownReq 0, Effect.sessionConnect 1 9 (some 7),
        Effect.spawnDetached 0],
       PassOutcome.passContinue true) :=
  credential_swap_on_discovery exMain 9 rfl

/-- C2: an interrupt while Running sends exactly one shutdown request to
the current handle when one is set and advances the shutdown flag; an
interrupt while already ShuttingDown ends the lifecycle immediately, with
no effects and regardless of whether the current task would have polled
ready. -/
theorem interrupt_two_stage_shutdown (s : Main) :
    (s.shutdown = false →
      onePass s { discoveryReady := none, connectPoll := ConnectPoll.notReady,
                  signalReady := true, taskReady := false } =
        ({ s with shutdown := true },
         (match s.spirc with
          | some g => [Effect.shutdownReq g]
          | none => []),
         PassOutcome.passContinue true)) ∧
    (s.shutdown = true → ∀ tr : Bool,
      onePass s { discoveryReady := none, connectPoll := ConnectPoll.notReady,
                  signalReady := true, taskReady := tr } =
        (s, [], PassOutcome.finished)) := by
  constructor
  · intro h
    cases hsp : s.spirc <;> cases hst : s.spirc_task <;> cases hd : s.discovery <;>
      cases hc : s.connect <;>
      simp [onePass, stepSignal, stepTask, h, hsp, hst, hd, hc]
  · intro h tr
    cases hd : s.discovery <;> cases hc : s.connect <;>
      simp [onePass, stepSignal, stepTask, h, hd, hc]

theorem interrupt_two_stage_shutdown_witness :
    (onePass exMain
      { discoveryReady := none, connectPoll := ConnectPoll.notReady,
        signalReady := true, taskReady := false } =
      ({ exMain with shutdown := true }, [Effect.shutdownReq 0],
       PassOutcome.passContinue true)) ∧
    (onePass { exMain with shutdown := true }
      { discoveryReady := none, connectPoll := ConnectPoll.notReady,
        signalReady := true, taskReady := true } =
      ({ exMain with shutdown := true }, [], PassOutcome.finished)) :=
  ⟨(interrupt_two_stage_shutdown exMain).1 rfl,
   (interrupt_two_stage_shutdown { exMain with shutdown := true }).2 rfl true⟩

/-- C3: when the current task completes, the lifecycle ends cleanly if the
shutdown flag is set and panics with the invariant violation otherwise;
neither case continues silently. -/
theorem task_completion_outcomes (s : Main) (g : Nat) (ht : s.spirc_task = some g) :
    (s.shutdown = true →
      onePass s { discoveryReady := none, connectPoll := ConnectPoll.notReady,
                  signalReady := false, taskReady := true } =
        (s, [], PassOutcome.finished)) ∧
    (s.shutdown = false →
      onePass s { discoveryReady := none, connectPoll := ConnectPoll.notReady,
                  signalReady := false, taskReady := true } =
        (s, [], PassOutcome.panicked "Spirc shut down unexpectedly")) := by
  constructor <;> intro h <;>
    cases hd : s.discovery <;> cases hc : s.connect <;>
      simp [onePass, stepSignal, stepTask, h, hd, hc, ht]

theorem task_completion_outcomes_witness :
    (onePass { exMain with shutdown := true }
      { discoveryReady := none, connectPoll := ConnectPoll.notReady,
        signalReady := false, taskReady := true } =
      ({ exMain with shutdown := true }, [], PassOutcome.finished)) ∧
    (onePass exMain
      { discoveryReady := none, connectPoll := ConnectPoll.notReady,
        signalReady := false, taskReady := true } =
      (exMain, [], PassOutcome.panicked "Spirc shut down unexpectedly")) :=
  ⟨(task_completion_outcomes { exMain with shutdown := true } 0 rfl).1 rfl,
   (task_completion_outcomes exMain 0 rfl).2 rfl⟩

/-- C4: when the pending connect resolves to a session, the pass invokes
the mixer factory exactly once, constructs the handle/task pair from the
connect config, the session and the mixer, stores both as current, and
resets the pending connect to the perpetually pending placeholder; while
the placeholder is in place, no pass without a discovery bundle resolves
it or invokes the mixer factory again. -/
theorem session_ready_installs_control_pair (s : Main) (c : Credentials)
    (sess : SessionId) (hc : s.connect = PendingConnect.connectAttempt c) :
    onePass s { discoveryReady := none, connectPoll := ConnectPoll.readySession sess,
                signalReady := false, taskReady := false } =
      ({ s with connect := PendingConnect.emptyFuture,
                spirc := some s.next_gen, spirc_task := some s.next_gen,
                next_gen := s.next_gen + 1 },
       [Effect.mixerCall s.mixer,
        Effect.spircNew s.connect_config s.scrobbler_config sess s.next_gen],
       PassOutcome.passContinue true) ∧
    (∀ s2 inp2, s2.connect = PendingConnect.emptyFuture →
      inp2.discoveryReady = none →
      (onePass s2 inp2).1.connect = PendingConnect.emptyFuture ∧
      ∀ m, Effect.mixerCall m ∉ (onePass s2 inp2).2.1) := by
  constructor
  · cases hd : s.discovery <;> simp [onePass, stepSignal, stepTask, hd, hc]
  · intro s2 inp2 h2 hd2
    exact onePass_empty_connect s2 inp2 h2 hd2

theorem session_ready_installs_control_pair_witness :
    onePass { exMain with connect := PendingConnect.connectAttempt 9,
                          spirc := none, spirc_task := none }
      { discoveryReady := none, connectPoll := ConnectPoll.readySession 11,
        signalReady := false, taskReady := false } =
      ({ exMain with connect := PendingConnect.emptyFuture,
                     spirc := some 1, spirc_task := some 1, next_gen := 2 },
       [Effect.mixerCall 3, Effect.spircNew 2 4 11 1],
       PassOutcome.passContinue true) :=
  (session_ready_installs_control_pair
    { exMain with connect := PendingConnect.connectAttempt 9,
                  spirc := none, spirc_task := none } 9 11 rfl).1

/-- C5: a failed poll of the in-flight connect attempt panics the whole
pass immediately: the pass produces no effects, and the poll loop stops at
the panic without consuming further passes, so no retry, backoff or
fallback happens at this layer. -/
theorem connect_failure_is_fatal (s : Main) (c : Credentials)
    (rest : List PassInput) (sr tr : Bool)
    (hc : s.connect = PendingConnect.connectAttempt c) :
    onePass s { discoveryReady := none, connectPoll := ConnectPoll.connectErr,
                signalReady := sr, taskReady := tr } =
      (s, [], PassOutcome.panicked "session connect failed") ∧
    pollLoop s ({ discoveryReady := none, connectPoll := ConnectPoll.connectErr,
                  signalReady := sr, taskReady := tr } :: rest) =
      (s, [], PollResult.panicked "session connect failed") := by
  have h1 : onePass s
      { discoveryReady := none, connectPoll := ConnectPoll.connectErr,
        signalReady := sr, taskReady := tr } =
      (s, [], PassOutcome.panicked "session connect failed") := by
    cases hd : s.discovery <;> simp [onePass, hd, hc]
  exact ⟨h1, pollLoop_cons_panicked s _ rest s [] _ h1⟩

theorem connect_failure_is_fatal_witness :
    onePass { exMain with connect := PendingConnect.connectAttempt 9 }
      { discoveryReady := none, connectPoll := ConnectPoll.connectErr,
        signalReady := false, taskReady := false } =
      ({ exMain with connect := PendingConnect.connectAttempt 9 }, [],
       PassOutcome.panicked "session connect failed") ∧
    pollLoop { exMain with connect := PendingConnect.connectAttempt 9 }
      [{ discoveryReady := none, connectPoll := ConnectPoll.connectErr,
         signalReady := false, taskReady := false }] =
      ({ exMain with connect := PendingConnect.connectAttempt 9 }, [],
       PollResult.panicked "session connect failed") :=
  connect_failure_is_fatal { exMain with connect := PendingConnect.connectAttempt 9 }
    9 [] false false rfl

/-- C6: the shutdown progression is monotone over the step function: the
shutdown flag never resets across a pass, the derived shutdown state never
loses rank across a whole call of the poll loop, and once the loop returns
ready the run ends there, consuming no further rounds. -/
theorem shutdown_state_monotonic :
    (∀ s inp, s.shutdown = true → (onePass s inp).1.shutdown = true) ∧
    (∀ s l, (shutdownStateAt s).rank ≤
      (shutdownStateAfter (pollLoop s l).1 (pollLoop s l).2.2).rank) ∧
    (∀ s round rest s1 e1, pollLoop s round = (s1, e1, PollResult.ready) →
      runMain s (round :: rest) = (s1, e1, RunResult.finishedOk)) := by
  refine ⟨?_, ?_, ?_⟩
  · intro s inp h
    exact (onePass_facts s inp).1 h
  · intro s l
    obtain ⟨msh, _, _⟩ := pollLoop_facts l s
    unfold shutdownStateAfter shutdownStateAt
    cases hsh : s.shutdown with
    | false =>
      cases hr : (pollLoop s l).2.2 <;> simp [ShutdownState.rank] <;> split <;>
        simp [ShutdownState.rank]
    | true =>
      have h2 := msh hsh
      cases hr : (pollLoop s l).2.2 <;> simp [ShutdownState.rank, h2]
  · intro s round rest s1 e1 h
    exact runMain_round_ready s round rest s1 e1 h

theorem shutdown_state_monotonic_witness :
    ((onePass { exMain with shutdown := true } exIdle).1.shutdown = true) ∧
    ((shutdownStateAt exMain).rank ≤
      (shutdownStateAfter (pollLoop exMain [exSignal]).1
        (pollLoop exMain [exSignal]).2.2).rank) ∧
    (runMain { exMain with shutdown := true } [[exSignal]] =
      ({ exMain with shutdown := true }, [], RunResult.finishedOk)) :=
  ⟨shutdown_state_monotonic.1 { exMain with shutdown := true } exIdle rfl,
   shutdown_state_monotonic.2.1 exMain [exSignal],
   shutdown_state_monotonic.2.2 { exMain with shutdown := true } [exSignal] []
     { exMain with shutdown := true } [] (by decide)⟩

/-- C7: at most one handle is tracked as current at any instant, every
shutdown request issued during a pass goes to the handle current at that
point of the pass (the handle current at the start, or the one freshly
installed within the pass), and a superseded handle generation never
becomes current again for the rest of the run. -/
theorem current_handle_at_most_one :
    (∀ s : Main, (currentHandles s).length ≤ 1) ∧
    (∀ s inp g, Effect.shutdownReq g ∈ (onePass s inp).2.1 →
      s.spirc = some g ∨ s.next_gen ≤ g) ∧
    (∀ s rounds g, s.spirc ≠ some g → g < s.next_gen →
      (runMain s rounds).1.spirc ≠ some g) := by
  refine ⟨?_, ?_, ?_⟩
  · intro s
    unfold currentHandles
    cases s.spirc <;> simp
  · intro s inp g h
    exact (onePass_facts s inp).2.2.2.2 g h
  · intro s rounds g hne hlt hcontra
    obtain ⟨_, _, horig⟩ := runMain_facts rounds s
    rcases horig g hcontra with h1 | h2
    · exact hne h1
    · omega

theorem current_handle_at_most_one_witness :
    (currentHandles exMain).length ≤ 1 ∧
    (exMain.spirc = some 0 ∨ exMain.next_gen ≤ 0) ∧
    (runMain { exMain with spirc := none } [[]]).1.spirc ≠ some 0 :=
  ⟨current_handle_at_most_one.1 exMain,
   current_handle_at_most_one.2.1 exMain exSignal 0 (by decide),
   current_handle_at_most_one.2.2 { exMain with spirc := none } [[]] 0
     (by decide) (by decide)⟩

/-- C8: a pass handles the four sources in the fixed order of the spec
drive step (discovery, then connect, then signal, then task completion,
with the effect trace concatenated in that order); while a pass makes
progress the loop runs another pass, and a pass with no progress leaves
the state untouched, emits nothing and suspends the loop. -/
theorem drive_pass_ordering_and_suspension :
    (∀ s inp, onePass s inp = specDrivePass s inp) ∧
    (∀ s inp rest, (onePass s inp).2.2 = PassOutcome.passContinue false →
      onePass s inp = (s, [], PassOutcome.passContinue false) ∧
      pollLoop s (inp :: rest) = (s, [], PollResult.notReady)) ∧
    (∀ s inp rest s1 e1, onePass s inp = (s1, e1, PassOutcome.passContinue true) →
      pollLoop s (inp :: rest) =
        ((pollLoop s1 rest).1, e1 ++ (pollLoop s1 rest).2.1,
         (pollLoop s1 rest).2.2)) := by
  refine ⟨onePass_eq_drive, ?_, ?_⟩
  · intro s inp rest h
    obtain ⟨hst, hef⟩ := (onePass_facts s inp).2.2.2.1 h
    have ho : onePass s inp = (s, [], PassOutcome.passContinue false) := by
      rcases hp : onePass s inp with ⟨s1, e1, o⟩
      rw [hp] at h hst hef
      simp only at h hst hef
      rw [h, hst, hef]
    exact ⟨ho, pollLoop_cons_noProgress s inp rest s [] ho⟩
  · intro s inp rest s1 e1 h
    exact pollLoop_cons_progress s inp rest s1 e1 h

theorem drive_pass_ordering_and_suspension_witness :
    (onePass exMain exIdle = specDrivePass exMain exIdle) ∧
    (onePass exMain exIdle = (exMain, [], PassOutcome.passContinue false) ∧
     pollLoop exMain [exIdle] = (exMain, [], PollResult.notReady)) ∧
    pollLoop exMain [exSignal] =
      ((pollLoop { exMain with shutdown := true } []).1,
       [Effect.shutdownReq 0] ++ (pollLoop { exMain with shutdown := true } []).2.1,
       (pollLoop { exMain with shutdown := true } []).2.2) :=
  ⟨drive_pass_ordering_and_suspension.1 exMain exIdle,
   drive_pass_ordering_and_suspension.2.1 exMain exIdle [] (by decide),
   drive_pass_ordering_and_suspension.2.2 exMain exSignal []
     { exMain with shutdown := true } [Effect.shutdownReq 0] (by decide)⟩

/-- C9: an argument vector that fails to parse makes setup print the parse
error followed by the usage text on the error stream and exit with code 1,
producing no parsed configuration to proceed with. -/
theorem parse_failure_prints_usage_and_exits (program : String)
    (args : List String) (f : String) (h : parseTokens args = Except.error f) :
    setupParse program args =
      SetupOutcome.usageExit ("error: " ++ f ++ "\n" ++ usage program) 1 ∧
    ∀ m, setupParse program args ≠ SetupOutcome.proceed m := by
  unfold setupParse
  rw [h]
  exact ⟨rfl, fun m hm => by cases hm⟩

theorem parse_failure_prints_usage_and_exits_witness :
    setupParse "spotify-connect-scrobbler" ["--bogus"] =
      SetupOutcome.usageExit
        ("error: " ++ "Unrecognized option: bogus" ++ "\n" ++
         usage "spotify-connect-scrobbler") 1 ∧
    ∀ m, setupParse "spotify-connect-scrobbler" ["--bogus"] ≠
      SetupOutcome.proceed m :=
  parse_failure_prints_usage_and_exits "spotify-connect-scrobbler" ["--bogus"]
    "Unrecognized option: bogus" rfl

/-- C10: a freshly constructed orchestrator with no startup credentials
has the perpetually pending placeholder as its connect and no control
pair, and over any run in which discovery never yields a bundle it emits
no effects, never creates a handle or task, never resolves the connect,
never panics, and can only finish after the shutdown flag was already set
by an earlier interrupt (the two-interrupt path). -/
theorem no_credentials_never_connects (setup : Setup)
    (rounds : List (List PassInput)) (hcred : setup.credentials = none)
    (hr : ∀ round ∈ rounds, ∀ inp ∈ round, inp.discoveryReady = none) :
    (Main.new setup).2 = [] ∧
    (Main.new setup).1.connect = PendingConnect.emptyFuture ∧
    (Main.new setup).1.spirc = none ∧
    (Main.new setup).1.spirc_task = none ∧
    (runMain (Main.new setup).1 rounds).2.1 = [] ∧
    (runMain (Main.new setup).1 rounds).1.spirc = none ∧
    (runMain (Main.new setup).1 rounds).1.spirc_task = none ∧
    (runMain (Main.new setup).1 rounds).1.connect = PendingConnect.emptyFuture ∧
    (∀ m, (runMain (Main.new setup).1 rounds).2.2 ≠ RunResult.runPanicked m) ∧
    ((runMain (Main.new setup).1 rounds).2.2 = RunResult.finishedOk →
      (runMain (Main.new setup).1 rounds).1.shutdown = true) := by
  have h2 : (Main.new setup).2 = [] := by simp [Main.new, hcred]
  have hcn : (Main.new setup).1.connect = PendingConnect.emptyFuture := by
    simp [Main.new, hcred]
  have hsp : (Main.new setup).1.spirc = none := by simp [Main.new, hcred]
  have hst : (Main.new setup).1.spirc_task = none := by simp [Main.new, hcred]
  obtain ⟨q1, q2, q3, q4, q5, q6⟩ :=
    runMain_quiescent rounds (Main.new setup).1 hr hsp hst hcn
  exact ⟨h2, hcn, hsp, hst, q4, q1, q2, q3, q5, q6⟩

theorem no_credentials_never_connects_witness :
    (Main.new exSetup).2 = [] ∧
    (Main.new exSetup).1.connect = PendingConnect.emptyFuture ∧
    (Main.new exSetup).1.spirc = none ∧
    (Main.new exSetup).1.spirc_task = none ∧
    (runMain (Main.new exSetup).1 [[exSignal], [exSignal]]).2.1 = [] ∧
    (runMain (Main.new exSetup).1 [[exSignal], [exSignal]]).1.spirc = none ∧
    (runMain (Main.new exSetup).1 [[exSignal], [exSignal]]).1.spirc_task = none ∧
    (runMain (Main.new exSetup).1 [[exSignal], [exSignal]]).1.connect =
      PendingConnect.emptyFuture ∧
    (∀ m, (runMain (Main.new exSetup).1 [[exSignal], [exSignal]]).2.2 ≠
      RunResult.runPanicked m) ∧
    ((runMain (Main.new exSetup).1 [[exSignal], [exSignal]]).2.2 =
        RunResult.finishedOk →
      (runMain (Main.new exSetup).1 [[exSignal], [exSignal]]).1.shutdown = true) :=
  no_credentials_never_connects exSetup [[exSignal], [exSignal]] rfl (by decide)

end Scrobble
